import Mathlib

/-!
Verification of the JIR (JSON Intermediate Representation) parser and
tree-walking evaluator of `json-monkey-rs`.

The Rust sources embedded here are `src/value.rs`, `src/ast.rs`,
`src/environment.rs`, `src/interpreter.rs` and `src/jir.rs`.  Pure Rust
functions become Lean functions; the interpreter's `&mut self` state becomes
explicit environment passing; Rust `Result` becomes an explicit result type
that also records abnormal termination (`panic`-style aborts from
out-of-bounds indexing, `unimplemented!()`, or an uncovered `match` arm),
since several properties under scrutiny are precisely about whether the
code can abort.
-/

namespace JsonMonkey

/-- Shallow model of Rust `f64` as this crate observes it: a finite value
(represented exactly as a rational) or NaN.  The properties verified here
depend on IEEE equality, truthiness and error dispatch, not on rounding,
so finite arithmetic is modelled exactly; infinities and signed zero play
no role in any claim and are not distinguished. -/
inductive F64 where
  | nan : F64
  | fin : Rat → F64
deriving DecidableEq, Repr

/-- IEEE `f64` addition as used in `interpreter.rs` (`l + r`): NaN
propagates, finite values add. -/
def F64.add : F64 → F64 → F64
  | .fin a, .fin b => .fin (a + b)
  | _, _ => .nan

/-- IEEE `f64` subtraction as used in `interpreter.rs` (`l - r`). -/
def F64.sub : F64 → F64 → F64
  | .fin a, .fin b => .fin (a - b)
  | _, _ => .nan

/-- IEEE `f64` equality (`==` on `f64`): NaN is never equal to anything,
including itself; finite values compare exactly. -/
def F64.beq : F64 → F64 → Bool
  | .fin a, .fin b => a = b
  | _, _ => false

/-- The runtime value type.  `src/value.rs` as committed declares only
`Null`, `Number(f64)` and `String(String)` (and derives no `PartialEq`),
but `src/interpreter.rs` and `src/jir.rs` in the same crate construct and
exhaustively match a fourth variant `Value::Boolean(bool)` and compare
values with `==`; the crate only compiles with the four-variant,
`PartialEq`-deriving declaration, which is what is embedded here. -/
inductive Value where
  | Null : Value
  | Number : F64 → Value
  | String : String → Value
  | Boolean : Bool → Value
deriving DecidableEq, Repr

/-- Rust's derived `PartialEq` on `Value` (used by `lv == rv` in the
`Eq`/`NotEq` arms of `eval`): structural comparison, variant tag plus
payload, with `f64` payloads compared by IEEE equality. -/
def Value.beq : Value → Value → Bool
  | .Null, .Null => true
  | .Number a, .Number b => a.beq b
  | .String a, .String b => a = b
  | .Boolean a, .Boolean b => a = b
  | _, _ => false

/-- Variant tag of a `Value`, for stating cross-variant facts. -/
def Value.tag : Value → Nat
  | .Null => 0
  | .Number _ => 1
  | .String _ => 2
  | .Boolean _ => 3

/-- The identifier type of `src/ast.rs`: `pub struct Ident(pub String)`. -/
structure Ident where
  str : String
deriving DecidableEq, Repr

/-- The AST of `src/ast.rs`.  The committed `ast.rs` lacks the `While`
variant, but `src/jir.rs` constructs `AstNode::While(cond, body)` for the
`$while` form, so the effective AST includes it. -/
inductive AstNode where
  | Literal : Value → AstNode
  | Ident : JsonMonkey.Ident → AstNode
  | Add : AstNode → AstNode → AstNode
  | Sub : AstNode → AstNode → AstNode
  | And : AstNode → AstNode → AstNode
  | Or : AstNode → AstNode → AstNode
  | Not : AstNode → AstNode
  | Eq : AstNode → AstNode → AstNode
  | NotEq : AstNode → AstNode → AstNode
  | If : AstNode → AstNode → Option AstNode → AstNode
  | Bind : JsonMonkey.Ident → AstNode → AstNode
  | While : AstNode → AstNode → AstNode
deriving Repr

/-- The evaluation error type declared at the bottom of
`src/interpreter.rs`. -/
inductive EvalError where
  | UnsupportedConversion : EvalError
  | UndefinedIdent : JsonMonkey.Ident → EvalError
  | UnexpectedTypeForOperation : EvalError
deriving DecidableEq, Repr

/-- Outcome of running a fallible Rust function: success, an error value
returned to the caller, or abnormal termination (`crash` models a Rust
panic: index out of bounds, `unimplemented!()`, or an uncovered `match`
arm). -/
inductive Res (ε α : Type) where
  | ok : α → Res ε α
  | err : ε → Res ε α
  | crash : Res ε α
deriving DecidableEq, Repr

/-- The interpreter's global environment, `src/environment.rs`:
`bindings: HashMap<Ident, Value>`, modelled through its `get`/`insert`
interface as an association list with overwrite-in-place insertion. -/
structure Environment where
  bindings : List (JsonMonkey.Ident × Value)
deriving DecidableEq, Repr

/-- `HashMap::get` on the bindings: the value bound to `i`, if any. -/
def Environment.get (env : Environment) (i : Ident) : Option Value :=
  go env.bindings
where
  go : List (Ident × Value) → Option Value
    | [] => none
    | (j, w) :: rest => if j = i then some w else go rest

/-- `HashMap::insert` on the bindings: bind `i` to `v`, overwriting any
existing binding of `i`. -/
def Environment.insert (env : Environment) (i : Ident) (v : Value) : Environment :=
  ⟨go env.bindings⟩
where
  go : List (Ident × Value) → List (Ident × Value)
    | [] => [(i, v)]
    | (j, w) :: rest => if j = i then (i, v) :: rest else (j, w) :: go rest

/-- `Value::to_number` from `src/interpreter.rs`: defined only on
`Number`, every other variant is `UnsupportedConversion`. -/
def Value.to_number : Value → Except EvalError F64
  | .Number num => .ok num
  | _ => .error .UnsupportedConversion

/-- `Value::to_boolean` from `src/interpreter.rs`: the truthiness
coercion.  `Number(n)` tests `*n != 0.0` with IEEE semantics (so NaN is
truthy), `String(s)` tests non-emptiness, `Null` is false, booleans pass
through.  Every arm returns `Ok`. -/
def Value.to_boolean : Value → Except EvalError Bool
  | .Boolean b => .ok b
  | .Number n => .ok (!(n.beq (.fin 0)))
  | .String s => .ok (!s.isEmpty)
  | .Null => .ok false

/-- Rust's `?` applied to a recursive `self.eval(..)` call: on success
continue with the produced value and the environment the call left
behind, otherwise propagate the failure together with that
environment. -/
def evalThen (r : Res EvalError Value × Environment)
    (f : Value → Environment → Res EvalError Value × Environment) :
    Res EvalError Value × Environment :=
  match r with
  | (.ok v, env) => f v env
  | other => other

/-- Rust's `?` applied to a `to_number`/`to_boolean` coercion during
evaluation; the coercion itself never touches the environment. -/
def coerceThen (c : Except EvalError α) (env : Environment)
    (f : α → Res EvalError Value × Environment) :
    Res EvalError Value × Environment :=
  match c with
  | .ok a => f a
  | .error e => (.err e, env)

/-- `Interpreter::eval` from `src/interpreter.rs`, with the `&mut self`
environment made an explicit argument and result.  Rust's `?` becomes
`evalThen`/`coerceThen` propagation of the failure outcome together with
the environment at that point.  The committed `eval` has no `While` arm
(the evaluator predates the parser's `$while` form), so the `While` case
is the uncovered-match abnormal outcome. -/
def eval : AstNode → Environment → Res EvalError Value × Environment
  | .Literal value, env => (.ok value, env)
  | .Add lhs rhs, env =>
    evalThen (eval lhs env) fun lv env1 =>
    evalThen (eval rhs env1) fun rv env2 =>
      match lv, rv with
      | .Number l, .Number r => (.ok (.Number (l.add r)), env2)
      | .String l, .String r => (.ok (.String (l ++ r)), env2)
      | _, _ => (.err .UnexpectedTypeForOperation, env2)
  | .Sub lhs rhs, env =>
    evalThen (eval lhs env) fun lv env1 =>
    evalThen (eval rhs env1) fun rv env2 =>
    coerceThen lv.to_number env2 fun l =>
    coerceThen rv.to_number env2 fun r =>
      (.ok (.Number (l.sub r)), env2)
  | .Ident ident, env =>
    match env.get ident with
    | some v => (.ok v, env)
    | none => (.err (.UndefinedIdent ident), env)
  | .Bind ident ast, env =>
    evalThen (eval ast env) fun value env1 =>
      (.ok .Null, env1.insert ident value)
  | .If cond true_branch false_branch, env =>
    evalThen (eval cond env) fun cv env1 =>
    coerceThen cv.to_boolean env1 fun b =>
      if b then
        eval true_branch env1
      else
        match false_branch with
        | some fb => eval fb env1
        | none => (.ok .Null, env1)
  | .And lhs rhs, env =>
    evalThen (eval lhs env) fun lvv env1 =>
    coerceThen lvv.to_boolean env1 fun lv =>
    evalThen (eval rhs env1) fun rvv env2 =>
    coerceThen rvv.to_boolean env2 fun rv =>
      (.ok (.Boolean (lv && rv)), env2)
  | .Or lhs rhs, env =>
    evalThen (eval lhs env) fun lvv env1 =>
    coerceThen lvv.to_boolean env1 fun lv =>
    evalThen (eval rhs env1) fun rvv env2 =>
    coerceThen rvv.to_boolean env2 fun rv =>
      (.ok (.Boolean (lv || rv)), env2)
  | .Not arg, env =>
    evalThen (eval arg env) fun v env1 =>
    coerceThen v.to_boolean env1 fun b =>
      (.ok (.Boolean (!b)), env1)
  | .Eq lhs rhs, env =>
    evalThen (eval lhs env) fun lv env1 =>
    evalThen (eval rhs env1) fun rv env2 =>
      (.ok (.Boolean (lv.beq rv)), env2)
  | .NotEq lhs rhs, env =>
    evalThen (eval lhs env) fun lv env1 =>
    evalThen (eval rhs env1) fun rv env2 =>
      (.ok (.Boolean (!(lv.beq rv))), env2)
  | .While _ _, env => (.crash, env)
termination_by ast _ => sizeOf ast

/-- `serde_json::Number`, exposed through the two observations the
parser makes of it: `as_f64()` (which may fail, yielding `None`) and
`to_string()`. -/
structure JsonNumber where
  as_f64 : Option F64
  toStr : String
deriving DecidableEq, Repr

/-- `serde_json::Value`: the generic decoded-JSON tree the parser
classifies.  Object payloads are modelled as association lists; the
parser never inspects them. -/
inductive JsonValue where
  | Null : JsonValue
  | Bool : Bool → JsonValue
  | Number : JsonNumber → JsonValue
  | String : String → JsonValue
  | Array : List JsonValue → JsonValue
  | Object : List (String × JsonValue) → JsonValue
deriving Repr

/-- The parse error type of `src/jir.rs`.  `InvalidJson` carries a
`serde_json::Error` in the source (produced only by the textual JSON
decoding step, which is external library code); the payload is never
inspected and is elided here. -/
inductive ParseError where
  | InvalidJson : ParseError
  | IdentExpected : ParseError
  | TooManyArgs : (actual : Nat) → (expected_max : Nat) → ParseError
  | NotEnoughArgs : (actual : Nat) → (expected_min : Nat) → ParseError
  | InvalidFormLength : (actual : Nat) → (expected : String) → ParseError
  | UnsupportedNumberLiteral : String → ParseError
  | UnsupportedForm : ParseError
deriving DecidableEq, Repr

/-- Rust's `usize::MAX` on a 64-bit target, the default for an absent
upper bound in `assert_form_range` (no call site leaves it absent). -/
def USIZE_MAX : Nat := 2 ^ 64 - 1

/-- `JirParser::assert_form_range` from `src/jir.rs`: checks
`vs.len()` against the optional bounds, reporting `NotEnoughArgs` below
the minimum and `TooManyArgs` above the maximum. -/
def assert_form_range (vs : List JsonValue) (mn mx : Option Nat) :
    Except ParseError Unit :=
  let expected_min := mn.getD 0
  let expected_max := mx.getD USIZE_MAX
  let actual := vs.length
  if actual < expected_min then
    .error (.NotEnoughArgs actual expected_min)
  else if actual > expected_max then
    .error (.TooManyArgs actual expected_max)
  else
    .ok ()

/-- `JirParser::parse_ident` from `src/jir.rs`: an identifier operand
must be a JSON string. -/
def parse_ident : JsonValue → Except ParseError Ident
  | .String s => .ok ⟨s⟩
  | _ => .error .IdentExpected

/-- The `$ref` arm of `parse_compound`: no arity check; indexing `vs[1]`
aborts when the form has a single element, extra elements beyond `vs[1]`
are ignored. -/
def parse_ref (vs : List JsonValue) : Res ParseError AstNode :=
  match vs with
  | _ :: o1 :: _ =>
    match parse_ident o1 with
    | .ok id => .ok (.Ident id)
    | .error e => .err e
  | _ => .crash

mutual

/-- `JirParser::parse_expression` from `src/jir.rs`: classifies a decoded
JSON node.  Scalars become literals, arrays are compound forms, and the
remaining shape — an object — hits the `unimplemented!()` arm, which is
abnormal termination, not a `ParseError`. -/
def parse_expression : JsonValue → Res ParseError AstNode
  | .Array values => parse_compound values
  | .Number num =>
    match num.as_f64 with
    | some n => .ok (.Literal (.Number n))
    | none => .err (.UnsupportedNumberLiteral num.toStr)
  | .Null => .ok (.Literal .Null)
  | .String s => .ok (.Literal (.String s))
  | .Bool b => .ok (.Literal (.Boolean b))
  | .Object _ => .crash
termination_by j => (sizeOf j, 0)

/-- `JirParser::parse_compound` from `src/jir.rs`: dispatch on `&vs[0]`
(which aborts on an empty array) through the chain of string guards of
the source's `match`, one helper per operator arm; an unrecognized head
— a non-string, or a string that is no recognized tag — is
`UnsupportedForm`. -/
def parse_compound (vs : List JsonValue) : Res ParseError AstNode :=
  match vs with
  | [] => .crash
  | v0 :: rest =>
    match v0 with
    | .String s =>
      if s = "$add" then parse_add (.String s :: rest)
      else if s = "$sub" then parse_sub (.String s :: rest)
      else if s = "$bind" then parse_bind (.String s :: rest)
      else if s = "$ref" then parse_ref (.String s :: rest)
      else if s = "$if" then parse_if (.String s :: rest)
      else if s = "$while" then parse_while (.String s :: rest)
      else if s = "$and" then parse_and (.String s :: rest)
      else if s = "$or" then parse_or (.String s :: rest)
      else if s = "$not" then parse_not (.String s :: rest)
      else if s = "$eq" then parse_eq (.String s :: rest)
      else if s = "$notEq" then parse_notEq (.String s :: rest)
      else .err .UnsupportedForm
    | _ => .err .UnsupportedForm
termination_by (sizeOf vs, 2)

/-- The `$add` arm: arity is checked by `assert_form_range(vs, 3, 3)`
before either operand is parsed.  The final fallback is unreachable
(the check already pinned the length to three). -/
def parse_add (vs : List JsonValue) : Res ParseError AstNode :=
  match assert_form_range vs (some 3) (some 3) with
  | .error e => .err e
  | .ok _ =>
    match vs with
    | [_, o1, o2] =>
      match parse_expression o1 with
      | .ok lhs =>
        match parse_expression o2 with
        | .ok rhs => .ok (.Add lhs rhs)
        | .err e => .err e
        | .crash => .crash
      | .err e => .err e
      | .crash => .crash
    | _ => .crash
termination_by (sizeOf vs, 1)

/-- The `$sub` arm: no arity check; the slice `vs[1..=2]` aborts when the
form has fewer than three elements and ignores any extra elements, and
its two operands are mapped through `parse_expression` and collected, so
they are parsed left to right with the first error winning. -/
def parse_sub (vs : List JsonValue) : Res ParseError AstNode :=
  match vs with
  | _ :: o1 :: o2 :: _ =>
    match parse_expression o1 with
    | .ok n1 =>
      match parse_expression o2 with
      | .ok n2 => .ok (.Sub n1 n2)
      | .err e => .err e
      | .crash => .crash
    | .err e => .err e
    | .crash => .crash
  | _ => .crash
termination_by (sizeOf vs, 1)

/-- The `$bind` arm: no arity check; `parse_ident(&vs[1])?` runs first
(aborting when `vs[1]` is absent, and returning `IdentExpected` before
`vs[2]` is ever touched), then `vs[2]` is indexed (aborting when absent)
and parsed; extra elements are ignored. -/
def parse_bind (vs : List JsonValue) : Res ParseError AstNode :=
  match vs with
  | _ :: o1 :: rest1 =>
    match parse_ident o1 with
    | .error e => .err e
    | .ok id =>
      match rest1 with
      | o2 :: _ =>
        match parse_expression o2 with
        | .ok e2 => .ok (.Bind id e2)
        | .err e => .err e
        | .crash => .crash
      | [] => .crash
  | _ => .crash
termination_by (sizeOf vs, 1)

/-- The `$if` arm: arity is checked by `assert_form_range(vs, 3, 4)`
before any operand is parsed; a fourth element, when present, becomes
the else branch. -/
def parse_if (vs : List JsonValue) : Res ParseError AstNode :=
  match assert_form_range vs (some 3) (some 4) with
  | .error e => .err e
  | .ok _ =>
    match vs with
    | [_, c, t] =>
      match parse_expression c with
      | .ok cond =>
        match parse_expression t with
        | .ok true_branch => .ok (.If cond true_branch none)
        | .err e => .err e
        | .crash => .crash
      | .err e => .err e
      | .crash => .crash
    | [_, c, t, f] =>
      match parse_expression c with
      | .ok cond =>
        match parse_expression t with
        | .ok true_branch =>
          match parse_expression f with
          | .ok false_branch => .ok (.If cond true_branch (some false_branch))
          | .err e => .err e
          | .crash => .crash
        | .err e => .err e
        | .crash => .crash
      | .err e => .err e
      | .crash => .crash
    | _ => .crash
termination_by (sizeOf vs, 1)

/-- The `$while` arm: arity checked by `assert_form_range(vs, 3, 3)`
before parsing; produces the `While` node no evaluator arm consumes. -/
def parse_while (vs : List JsonValue) : Res ParseError AstNode :=
  match assert_form_range vs (some 3) (some 3) with
  | .error e => .err e
  | .ok _ =>
    match vs with
    | [_, c, b] =>
      match parse_expression c with
      | .ok cond =>
        match parse_expression b with
        | .ok body => .ok (.While cond body)
        | .err e => .err e
        | .crash => .crash
      | .err e => .err e
      | .crash => .crash
    | _ => .crash
termination_by (sizeOf vs, 1)

/-- The `$and` arm: arity checked by `assert_form_range(vs, 3, 3)`
before either operand is parsed. -/
def parse_and (vs : List JsonValue) : Res ParseError AstNode :=
  match assert_form_range vs (some 3) (some 3) with
  | .error e => .err e
  | .ok _ =>
    match vs with
    | [_, o1, o2] =>
      match parse_expression o1 with
      | .ok lhs =>
        match parse_expression o2 with
        | .ok rhs => .ok (.And lhs rhs)
        | .err e => .err e
        | .crash => .crash
      | .err e => .err e
      | .crash => .crash
    | _ => .crash
termination_by (sizeOf vs, 1)

/-- The `$or` arm: arity checked by `assert_form_range(vs, 3, 3)`
before either operand is parsed. -/
def parse_or (vs : List JsonValue) : Res ParseError AstNode :=
  match assert_form_range vs (some 3) (some 3) with
  | .error e => .err e
  | .ok _ =>
    match vs with
    | [_, o1, o2] =>
      match parse_expression o1 with
      | .ok lhs =>
        match parse_expression o2 with
        | .ok rhs => .ok (.Or lhs rhs)
        | .err e => .err e
        | .crash => .crash
      | .err e => .err e
      | .crash => .crash
    | _ => .crash
termination_by (sizeOf vs, 1)

/-- The `$not` arm: arity checked by `assert_form_range(vs, 2, 2)`
before the operand is parsed. -/
def parse_not (vs : List JsonValue) : Res ParseError AstNode :=
  match assert_form_range vs (some 2) (some 2) with
  | .error e => .err e
  | .ok _ =>
    match vs with
    | [_, o1] =>
      match parse_expression o1 with
      | .ok arg => .ok (.Not arg)
      | .err e => .err e
      | .crash => .crash
    | _ => .crash
termination_by (sizeOf vs, 1)

/-- The `$eq` arm: arity checked by `assert_form_range(vs, 3, 3)`
before either operand is parsed. -/
def parse_eq (vs : List JsonValue) : Res ParseError AstNode :=
  match assert_form_range vs (some 3) (some 3) with
  | .error e => .err e
  | .ok _ =>
    match vs with
    | [_, o1, o2] =>
      match parse_expression o1 with
      | .ok lhs =>
        match parse_expression o2 with
        | .ok rhs => .ok (.Eq lhs rhs)
        | .err e => .err e
        | .crash => .crash
      | .err e => .err e
      | .crash => .crash
    | _ => .crash
termination_by (sizeOf vs, 1)

/-- The `$notEq` arm: arity checked by `assert_form_range(vs, 3, 3)`
before either operand is parsed. -/
def parse_notEq (vs : List JsonValue) : Res ParseError AstNode :=
  match assert_form_range vs (some 3) (some 3) with
  | .error e => .err e
  | .ok _ =>
    match vs with
    | [_, o1, o2] =>
      match parse_expression o1 with
      | .ok lhs =>
        match parse_expression o2 with
        | .ok rhs => .ok (.NotEq lhs rhs)
        | .err e => .err e
        | .crash => .crash
      | .err e => .err e
      | .crash => .crash
    | _ => .crash
termination_by (sizeOf vs, 1)

end

/-- `JirParser::parse_json` from `src/jir.rs` composes the external
textual JSON decoder (`serde_json::from_str`, whose failure is
`InvalidJson`) with `parse_expression`; it is embedded here at the
decoded-`JsonValue` level, where every claim about it is stated. -/
def parse_json (v : JsonValue) : Res ParseError AstNode :=
  parse_expression v

/-- The operator heads recognized by the guard chain of
`parse_compound`: a JSON string equal to one of the eleven tags. -/
def is_recognized_head : JsonValue → Bool
  | .String s =>
    s = "$add" || s = "$sub" || s = "$bind" || s = "$ref" || s = "$if" ||
    s = "$while" || s = "$and" || s = "$or" || s = "$not" || s = "$eq" ||
    s = "$notEq"
  | _ => false

/-! Helper lemmas about the environment. -/

theorem Environment.get_go_insert_go (i : Ident) (v : Value)
    (l : List (Ident × Value)) :
    Environment.get.go i (Environment.insert.go i v l) = some v := by
  induction l with
  | nil => simp [Environment.insert.go, Environment.get.go]
  | cons hd tl ih =>
    obtain ⟨j, w⟩ := hd
    by_cases h : j = i <;>
      simp [Environment.insert.go, Environment.get.go, h, ih]

/-- After `insert i v`, looking up `i` yields `v`. -/
theorem Environment.get_insert (env : Environment) (i : Ident) (v : Value) :
    (env.insert i v).get i = some v := by
  simpa [Environment.get, Environment.insert] using
    Environment.get_go_insert_go i v env.bindings

/-- C6: the truthiness coercion `to_boolean` is total — it returns `Ok`
on every value, computing exactly the table `Boolean(b) ↦ b`,
`Number(n) ↦ (n ≠ 0.0)` under IEEE comparison, `String(s) ↦ (s
non-empty)`, `Null ↦ false`; in particular a number is truthy exactly
when it differs from zero and a string exactly when it is non-empty. -/
theorem to_boolean_totality :
    (∀ v : Value, v.to_boolean = .ok (match v with
      | .Boolean b => b
      | .Number n => !(n.beq (.fin 0))
      | .String s => !s.isEmpty
      | .Null => false)) ∧
    (∀ n : F64, Value.to_boolean (.Number n) = .ok true ↔ n ≠ .fin 0) ∧
    (∀ s : String, Value.to_boolean (.String s) = .ok true ↔ s ≠ "") := by
  refine ⟨fun v => by cases v <;> rfl, fun n => ?_, fun s => ?_⟩
  · cases n with
    | nan => simp [Value.to_boolean, F64.beq]
    | fin q =>
      simp only [Value.to_boolean, F64.beq, Except.ok.injEq, ne_eq,
        F64.fin.injEq]
      constructor
      · intro h hq
        subst hq
        simp at h
      · intro h
        simp [h]
  · simp only [Value.to_boolean, Except.ok.injEq, Bool.not_eq_true',
      ne_eq, ← String.isEmpty_iff]
    exact Bool.not_eq_true _ ▸ Iff.rfl

/-- C6 witness: `Number(2)` is truthy via the totality theorem. -/
theorem to_boolean_totality_witness :
    Value.to_boolean (.Number (.fin 2)) = .ok true :=
  (to_boolean_totality.2.1 (.fin 2)).mpr (by decide)

/-- C3: evaluating `If(cond, then, else?)` first evaluates `cond` and
coerces it to a boolean; when true only the then branch is evaluated,
when false with an else branch only that branch is evaluated, and when
false without one the result is `Null` with the environment exactly as
the condition left it — the untaken branch contributes nothing to the
result or the environment. -/
theorem if_semantics (env env1 : Environment) (cond true_branch : AstNode)
    (false_branch : Option AstNode) (cv : Value) (b : Bool)
    (hc : eval cond env = (.ok cv, env1)) (hb : cv.to_boolean = .ok b) :
    eval (.If cond true_branch false_branch) env =
      (if b then eval true_branch env1
       else match false_branch with
         | some fb => eval fb env1
         | none => (.ok .Null, env1)) := by
  simp [eval, evalThen, coerceThen, hc, hb]

/-- C3 witness: a false condition with no else branch yields `Null`, and
the `Bind` sitting in the untaken then branch does not touch the
environment. -/
theorem if_semantics_witness :
    eval (.If (.Literal (.Boolean false))
        (.Bind ⟨"x"⟩ (.Literal (.Number (.fin 1)))) none) ⟨[]⟩ =
      (.ok .Null, ⟨[]⟩) := by
  have h := if_semantics ⟨[]⟩ ⟨[]⟩ (.Literal (.Boolean false))
    (.Bind ⟨"x"⟩ (.Literal (.Number (.fin 1)))) none (.Boolean false) false
    (by simp [eval]) (by simp [Value.to_boolean])
  simpa using h

/-- C4: `Add(l, r)` evaluates the left operand and then the right
operand in the environment the left one produced; two numbers add, two
strings concatenate left-then-right, and every other pairing — mixed
included — is the evaluation error `UnexpectedTypeForOperation`,
reported only after both operands ran (the right operand's effects
persist in the final environment even for the failing pairings). -/
theorem add_semantics (env env1 env2 : Environment) (lhs rhs : AstNode)
    (lv rv : Value) (hl : eval lhs env = (.ok lv, env1))
    (hr : eval rhs env1 = (.ok rv, env2)) :
    eval (.Add lhs rhs) env =
      ((match lv, rv with
        | .Number l, .Number r => .ok (.Number (l.add r))
        | .String l, .String r => .ok (.String (l ++ r))
        | _, _ => .err .UnexpectedTypeForOperation), env2) := by
  cases lv <;> cases rv <;> simp [eval, evalThen, hl, hr]

/-- C4 witness: adding a number and a string is
`UnexpectedTypeForOperation`. -/
theorem add_semantics_witness :
    eval (.Add (.Literal (.Number (.fin 1))) (.Literal (.String "1"))) ⟨[]⟩ =
      (.err .UnexpectedTypeForOperation, ⟨[]⟩) := by
  have h := add_semantics ⟨[]⟩ ⟨[]⟩ ⟨[]⟩ (.Literal (.Number (.fin 1)))
    (.Literal (.String "1")) (.Number (.fin 1)) (.String "1")
    (by simp [eval]) (by simp [eval])
  simpa using h

/-- C5: `And(l, r)` and `Or(l, r)` evaluate the left operand, coerce it,
then always evaluate the right operand in the environment the left one
produced — no short-circuit — and return the boolean conjunction or
disjunction; any error or environment mutation the right operand
produces occurs even when the left operand already determines the
result. -/
theorem and_or_semantics (env env1 : Environment) (lhs rhs : AstNode)
    (lvv : Value) (bl : Bool)
    (hl : eval lhs env = (.ok lvv, env1)) (hbl : lvv.to_boolean = .ok bl) :
    (∀ rvv env2 br, eval rhs env1 = (.ok rvv, env2) →
        rvv.to_boolean = .ok br →
        eval (.And lhs rhs) env = (.ok (.Boolean (bl && br)), env2) ∧
        eval (.Or lhs rhs) env = (.ok (.Boolean (bl || br)), env2)) ∧
    (∀ er env2, eval rhs env1 = (.err er, env2) →
        eval (.And lhs rhs) env = (.err er, env2) ∧
        eval (.Or lhs rhs) env = (.err er, env2)) := by
  constructor
  · intro rvv env2 br hr hbr
    constructor <;> simp [eval, evalThen, coerceThen, hl, hbl, hr, hbr]
  · intro er env2 hr
    constructor <;> simp [eval, evalThen, coerceThen, hl, hbl, hr]

/-- C2 counterexample: a failing `Bind` does not leave the environment
as it was.  Starting from `x ↦ 1`, evaluating
`Bind("x", Add(Bind("x", 2), ""))` errors with
`UnexpectedTypeForOperation` (the `Add` mixes `Null` and a string), yet
the inner `Bind` inside the right-hand side already ran, so the prior
binding of `x` is now `2`, not `1`. -/
theorem bind_error_env_counterexample :
    eval (.Bind ⟨"x"⟩ (.Add (.Bind ⟨"x"⟩ (.Literal (.Number (.fin 2))))
        (.Literal (.String ""))))
      ⟨[(⟨"x"⟩, .Number (.fin 1))]⟩ =
      (.err .UnexpectedTypeForOperation, ⟨[(⟨"x"⟩, .Number (.fin 2))]⟩) ∧
    (⟨[(⟨"x"⟩, .Number (.fin 2))]⟩ : Environment) ≠
      ⟨[(⟨"x"⟩, .Number (.fin 1))]⟩ := by
  constructor
  · simp [eval, evalThen, Environment.insert, Environment.insert.go]
  · decide

/-- C2 (amended): `Bind(name, expr)` evaluates `expr` to `v`, then
inserts or overwrites `name ↦ v` and itself yields `Null`, after which
`Ident(name)` yields `v`.  When the evaluation of `expr` errors, the
`Bind` performs no insert of its own: the resulting environment is
exactly the one the failed evaluation of `expr` left behind — which is
the original environment whenever `expr` itself performed no successful
`Bind`, but not in general. -/
theorem bind_semantics_amended (env : Environment) (n : Ident) (e : AstNode) :
    (∀ v env1, eval e env = (.ok v, env1) →
      eval (.Bind n e) env = (.ok .Null, env1.insert n v) ∧
      eval (.Ident n) (env1.insert n v) = (.ok v, env1.insert n v)) ∧
    (∀ er env1, eval e env = (.err er, env1) →
      eval (.Bind n e) env = (.err er, env1)) := by
  constructor
  · intro v env1 h
    refine ⟨by simp [eval, evalThen, h], ?_⟩
    simp [eval, Environment.get_insert]
  · intro er env1 h
    simp [eval, evalThen, h]

/-- C2 witness: binding `x` to `1` in the empty environment succeeds,
yields `Null`, and referencing `x` afterwards yields `1`. -/
theorem bind_semantics_amended_witness :
    eval (.Bind ⟨"x"⟩ (.Literal (.Number (.fin 1)))) ⟨[]⟩ =
      (.ok .Null, (⟨[]⟩ : Environment).insert ⟨"x"⟩ (.Number (.fin 1))) ∧
    eval (.Ident ⟨"x"⟩) ((⟨[]⟩ : Environment).insert ⟨"x"⟩ (.Number (.fin 1))) =
      (.ok (.Number (.fin 1)),
        (⟨[]⟩ : Environment).insert ⟨"x"⟩ (.Number (.fin 1))) :=
  (bind_semantics_amended ⟨[]⟩ ⟨"x"⟩ (.Literal (.Number (.fin 1)))).1
    (.Number (.fin 1)) ⟨[]⟩ (by simp [eval])

/-- C7: `NotEq` is the exact negation of `Eq` from the same starting
state: when both operands evaluate, `Eq` yields the structural equality
verdict and `NotEq` its boolean negation over the same final
environment, and `Eq` succeeds with `Boolean b` exactly when `NotEq`
succeeds with `Boolean (¬b)`; both operators only ever produce booleans
on success, and structural equality across different variant tags is
always false. -/
theorem eq_notEq_negation (env : Environment) (lhs rhs : AstNode) :
    (∀ lv rv env1 env2, eval lhs env = (.ok lv, env1) →
      eval rhs env1 = (.ok rv, env2) →
      eval (.Eq lhs rhs) env = (.ok (.Boolean (lv.beq rv)), env2) ∧
      eval (.NotEq lhs rhs) env = (.ok (.Boolean (!(lv.beq rv))), env2)) ∧
    (∀ b env', eval (.Eq lhs rhs) env = (.ok (.Boolean b), env') ↔
      eval (.NotEq lhs rhs) env = (.ok (.Boolean (!b)), env')) ∧
    (∀ v env', eval (.Eq lhs rhs) env = (.ok v, env') →
      ∃ b, v = .Boolean b) ∧
    (∀ v env', eval (.NotEq lhs rhs) env = (.ok v, env') →
      ∃ b, v = .Boolean b) ∧
    (∀ v w : Value, v.tag ≠ w.tag → v.beq w = false) := by
  refine ⟨?_, ?_, ?_, ?_, ?_⟩
  · intro lv rv env1 env2 hl hr
    constructor <;> simp [eval, evalThen, hl, hr]
  · intro b env'
    rcases hL : eval lhs env with ⟨rl, env1⟩
    cases rl with
    | ok lv =>
      rcases hR : eval rhs env1 with ⟨rr, env2⟩
      cases rr with
      | ok rv =>
        simp only [eval, evalThen, hL, hR, Prod.mk.injEq, Res.ok.injEq,
          Value.Boolean.injEq]
        constructor
        · rintro ⟨h1, h2⟩
          exact ⟨by rw [h1], h2⟩
        · rintro ⟨h1, h2⟩
          exact ⟨Bool.not_inj h1, h2⟩
      | err e => simp [eval, evalThen, hL, hR]
      | crash => simp [eval, evalThen, hL, hR]
    | err e => simp [eval, evalThen, hL]
    | crash => simp [eval, evalThen, hL]
  · intro v env' h
    rcases hL : eval lhs env with ⟨rl, env1⟩
    cases rl with
    | ok lv =>
      rcases hR : eval rhs env1 with ⟨rr, env2⟩
      cases rr with
      | ok rv =>
        simp only [eval, evalThen, hL, hR, Prod.mk.injEq, Res.ok.injEq] at h
        exact ⟨lv.beq rv, h.1.symm⟩
      | err e => simp [eval, evalThen, hL, hR] at h
      | crash => simp [eval, evalThen, hL, hR] at h
    | err e => simp [eval, evalThen, hL] at h
    | crash => simp [eval, evalThen, hL] at h
  · intro v env' h
    rcases hL : eval lhs env with ⟨rl, env1⟩
    cases rl with
    | ok lv =>
      rcases hR : eval rhs env1 with ⟨rr, env2⟩
      cases rr with
      | ok rv =>
        simp only [eval, evalThen, hL, hR, Prod.mk.injEq, Res.ok.injEq] at h
        exact ⟨!(lv.beq rv), h.1.symm⟩
      | err e => simp [eval, evalThen, hL, hR] at h
      | crash => simp [eval, evalThen, hL, hR] at h
    | err e => simp [eval, evalThen, hL] at h
    | crash => simp [eval, evalThen, hL] at h
  · intro v w h
    cases v <;> cases w <;> first
      | rfl
      | exact absurd rfl h

/-- C7 witness: comparing `Number 1` with `String "1"` yields `false`
for `Eq` and `true` for `NotEq`. -/
theorem eq_notEq_negation_witness :
    eval (.Eq (.Literal (.Number (.fin 1))) (.Literal (.String "1"))) ⟨[]⟩ =
      (.ok (.Boolean false), ⟨[]⟩) ∧
    eval (.NotEq (.Literal (.Number (.fin 1))) (.Literal (.String "1"))) ⟨[]⟩ =
      (.ok (.Boolean true), ⟨[]⟩) := by
  have h := (eq_notEq_negation ⟨[]⟩ (.Literal (.Number (.fin 1)))
      (.Literal (.String "1"))).1 (.Number (.fin 1)) (.String "1") ⟨[]⟩ ⟨[]⟩
    (by simp [eval]) (by simp [eval])
  simpa [Value.beq] using h

/-- C5 witness: with a false left operand, `And` still evaluates the
right operand — the `Bind` on the right lands in the environment. -/
theorem and_or_semantics_witness :
    eval (.And (.Literal (.Boolean false))
        (.Bind ⟨"y"⟩ (.Literal (.Number (.fin 1))))) ⟨[]⟩ =
      (.ok (.Boolean false), ⟨[(⟨"y"⟩, .Number (.fin 1))]⟩) := by
  have h := (and_or_semantics ⟨[]⟩ ⟨[]⟩ (.Literal (.Boolean false))
      (.Bind ⟨"y"⟩ (.Literal (.Number (.fin 1)))) (.Boolean false) false
      (by simp [eval]) (by simp [Value.to_boolean])).1
    .Null ⟨[(⟨"y"⟩, .Number (.fin 1))]⟩ false
    (by simp [eval, evalThen, Environment.insert, Environment.insert.go])
    (by simp [Value.to_boolean])
  simpa using h.1

/-- C9: the `Value` domain is closed — every value is `Null`, a
`Number`, a `String` or a `Boolean` — and equality is structural with
IEEE float semantics on numbers: `Eq` on two NaN literals yields
`Boolean false`, while comparison is reflexive on every finite number,
every string, every boolean, and null. -/
theorem value_domain_ieee_eq :
    (∀ v : Value, v = .Null ∨ (∃ n, v = .Number n) ∨
      (∃ s, v = .String s) ∨ (∃ b, v = .Boolean b)) ∧
    (∀ env : Environment,
      eval (.Eq (.Literal (.Number .nan)) (.Literal (.Number .nan))) env =
        (.ok (.Boolean false), env)) ∧
    (∀ env : Environment, ∀ q : Rat,
      eval (.Eq (.Literal (.Number (.fin q))) (.Literal (.Number (.fin q))))
          env = (.ok (.Boolean true), env)) ∧
    (∀ q : Rat, Value.beq (.Number (.fin q)) (.Number (.fin q)) = true) ∧
    (∀ s : String, Value.beq (.String s) (.String s) = true) ∧
    (∀ b : Bool, Value.beq (.Boolean b) (.Boolean b) = true) ∧
    Value.beq .Null .Null = true ∧
    Value.beq (.Number .nan) (.Number .nan) = false := by
  refine ⟨?_, ?_, ?_, ?_, ?_, ?_, rfl, rfl⟩
  · intro v
    cases v with
    | Null => exact Or.inl rfl
    | Number n => exact Or.inr (Or.inl ⟨n, rfl⟩)
    | String s => exact Or.inr (Or.inr (Or.inl ⟨s, rfl⟩))
    | Boolean b => exact Or.inr (Or.inr (Or.inr ⟨b, rfl⟩))
  · intro env
    simp [eval, evalThen, Value.beq, F64.beq]
  · intro env q
    simp [eval, evalThen, Value.beq, F64.beq]
  · intro q
    simp [Value.beq, F64.beq]
  · intro s
    simp [Value.beq]
  · intro b
    simp [Value.beq]

/-! Characterization lemmas for the parser: how `parse_compound`
dispatches each recognized tag to its arm, and how each arm behaves on
the form lengths where no operand needs to be parsed. -/

set_option maxHeartbeats 1600000 in
theorem parse_compound_cons_add (rest : List JsonValue) :
    parse_compound (.String "$add" :: rest) =
      parse_add (.String "$add" :: rest) := by
  simp [parse_compound]

set_option maxHeartbeats 1600000 in
theorem parse_compound_cons_sub (rest : List JsonValue) :
    parse_compound (.String "$sub" :: rest) =
      parse_sub (.String "$sub" :: rest) := by
  simp [parse_compound]

set_option maxHeartbeats 1600000 in
theorem parse_compound_cons_bind (rest : List JsonValue) :
    parse_compound (.String "$bind" :: rest) =
      parse_bind (.String "$bind" :: rest) := by
  simp [parse_compound]

set_option maxHeartbeats 1600000 in
theorem parse_compound_cons_ref (rest : List JsonValue) :
    parse_compound (.String "$ref" :: rest) =
      parse_ref (.String "$ref" :: rest) := by
  simp [parse_compound]

set_option maxHeartbeats 1600000 in
theorem parse_compound_cons_if (rest : List JsonValue) :
    parse_compound (.String "$if" :: rest) =
      parse_if (.String "$if" :: rest) := by
  simp [parse_compound]

set_option maxHeartbeats 1600000 in
theorem parse_compound_cons_and (rest : List JsonValue) :
    parse_compound (.String "$and" :: rest) =
      parse_and (.String "$and" :: rest) := by
  simp [parse_compound]

set_option maxHeartbeats 1600000 in
theorem parse_compound_cons_or (rest : List JsonValue) :
    parse_compound (.String "$or" :: rest) =
      parse_or (.String "$or" :: rest) := by
  simp [parse_compound]

set_option maxHeartbeats 1600000 in
theorem parse_compound_cons_not (rest : List JsonValue) :
    parse_compound (.String "$not" :: rest) =
      parse_not (.String "$not" :: rest) := by
  simp [parse_compound]

set_option maxHeartbeats 1600000 in
theorem parse_compound_cons_eq (rest : List JsonValue) :
    parse_compound (.String "$eq" :: rest) =
      parse_eq (.String "$eq" :: rest) := by
  simp [parse_compound]

set_option maxHeartbeats 1600000 in
theorem parse_compound_cons_notEq (rest : List JsonValue) :
    parse_compound (.String "$notEq" :: rest) =
      parse_notEq (.String "$notEq" :: rest) := by
  simp [parse_compound]

set_option maxHeartbeats 1600000 in
theorem parse_add_arity_err :
    (∀ v : JsonValue, parse_add [v] = .err (.NotEnoughArgs 1 3)) ∧
    (∀ v o1 : JsonValue, parse_add [v, o1] = .err (.NotEnoughArgs 2 3)) ∧
    (∀ (v o1 o2 o3 : JsonValue) (tl : List JsonValue),
      parse_add (v :: o1 :: o2 :: o3 :: tl) =
        .err (.TooManyArgs (v :: o1 :: o2 :: o3 :: tl).length 3)) := by
  refine ⟨fun v => by simp [parse_add, assert_form_range],
    fun v o1 => by simp [parse_add, assert_form_range],
    fun v o1 o2 o3 tl => ?_⟩
  have h2 : ¬(tl.length + 1 + 1 + 1 + 1 < 3) := by omega
  simp [parse_add, assert_form_range, h2]

set_option maxHeartbeats 1600000 in
theorem parse_and_arity_err :
    (∀ v : JsonValue, parse_and [v] = .err (.NotEnoughArgs 1 3)) ∧
    (∀ v o1 : JsonValue, parse_and [v, o1] = .err (.NotEnoughArgs 2 3)) ∧
    (∀ (v o1 o2 o3 : JsonValue) (tl : List JsonValue),
      parse_and (v :: o1 :: o2 :: o3 :: tl) =
        .err (.TooManyArgs (v :: o1 :: o2 :: o3 :: tl).length 3)) := by
  refine ⟨fun v => by simp [parse_and, assert_form_range],
    fun v o1 => by simp [parse_and, assert_form_range],
    fun v o1 o2 o3 tl => ?_⟩
  have h2 : ¬(tl.length + 1 + 1 + 1 + 1 < 3) := by omega
  simp [parse_and, assert_form_range, h2]

set_option maxHeartbeats 1600000 in
theorem parse_or_arity_err :
    (∀ v : JsonValue, parse_or [v] = .err (.NotEnoughArgs 1 3)) ∧
    (∀ v o1 : JsonValue, parse_or [v, o1] = .err (.NotEnoughArgs 2 3)) ∧
    (∀ (v o1 o2 o3 : JsonValue) (tl : List JsonValue),
      parse_or (v :: o1 :: o2 :: o3 :: tl) =
        .err (.TooManyArgs (v :: o1 :: o2 :: o3 :: tl).length 3)) := by
  refine ⟨fun v => by simp [parse_or, assert_form_range],
    fun v o1 => by simp [parse_or, assert_form_range],
    fun v o1 o2 o3 tl => ?_⟩
  have h2 : ¬(tl.length + 1 + 1 + 1 + 1 < 3) := by omega
  simp [parse_or, assert_form_range, h2]

set_option maxHeartbeats 1600000 in
theorem parse_eq_arity_err :
    (∀ v : JsonValue, parse_eq [v] = .err (.NotEnoughArgs 1 3)) ∧
    (∀ v o1 : JsonValue, parse_eq [v, o1] = .err (.NotEnoughArgs 2 3)) ∧
    (∀ (v o1 o2 o3 : JsonValue) (tl : List JsonValue),
      parse_eq (v :: o1 :: o2 :: o3 :: tl) =
        .err (.TooManyArgs (v :: o1 :: o2 :: o3 :: tl).length 3)) := by
  refine ⟨fun v => by simp [parse_eq, assert_form_range],
    fun v o1 => by simp [parse_eq, assert_form_range],
    fun v o1 o2 o3 tl => ?_⟩
  have h2 : ¬(tl.length + 1 + 1 + 1 + 1 < 3) := by omega
  simp [parse_eq, assert_form_range, h2]

set_option maxHeartbeats 1600000 in
theorem parse_notEq_arity_err :
    (∀ v : JsonValue, parse_notEq [v] = .err (.NotEnoughArgs 1 3)) ∧
    (∀ v o1 : JsonValue, parse_notEq [v, o1] = .err (.NotEnoughArgs 2 3)) ∧
    (∀ (v o1 o2 o3 : JsonValue) (tl : List JsonValue),
      parse_notEq (v :: o1 :: o2 :: o3 :: tl) =
        .err (.TooManyArgs (v :: o1 :: o2 :: o3 :: tl).length 3)) := by
  refine ⟨fun v => by simp [parse_notEq, assert_form_range],
    fun v o1 => by simp [parse_notEq, assert_form_range],
    fun v o1 o2 o3 tl => ?_⟩
  have h2 : ¬(tl.length + 1 + 1 + 1 + 1 < 3) := by omega
  simp [parse_notEq, assert_form_range, h2]

set_option maxHeartbeats 1600000 in
theorem parse_if_arity_err :
    (∀ v : JsonValue, parse_if [v] = .err (.NotEnoughArgs 1 3)) ∧
    (∀ v o1 : JsonValue, parse_if [v, o1] = .err (.NotEnoughArgs 2 3)) ∧
    (∀ (v o1 o2 o3 o4 : JsonValue) (tl : List JsonValue),
      parse_if (v :: o1 :: o2 :: o3 :: o4 :: tl) =
        .err (.TooManyArgs (v :: o1 :: o2 :: o3 :: o4 :: tl).length 4)) := by
  refine ⟨fun v => by simp [parse_if, assert_form_range],
    fun v o1 => by simp [parse_if, assert_form_range],
    fun v o1 o2 o3 o4 tl => ?_⟩
  have h2 : ¬(tl.length + 1 + 1 + 1 + 1 + 1 < 3) := by omega
  simp [parse_if, assert_form_range, h2]

set_option maxHeartbeats 1600000 in
theorem parse_not_arity_err :
    (∀ v : JsonValue, parse_not [v] = .err (.NotEnoughArgs 1 2)) ∧
    (∀ (v o1 o2 : JsonValue) (tl : List JsonValue),
      parse_not (v :: o1 :: o2 :: tl) =
        .err (.TooManyArgs (v :: o1 :: o2 :: tl).length 2)) := by
  refine ⟨fun v => by simp [parse_not, assert_form_range],
    fun v o1 o2 tl => ?_⟩
  have h2 : ¬(tl.length + 1 + 1 + 1 < 2) := by omega
  simp [parse_not, assert_form_range, h2]

set_option maxHeartbeats 1600000 in
theorem parse_sub_short :
    (∀ v : JsonValue, parse_sub [v] = .crash) ∧
    (∀ v o1 : JsonValue, parse_sub [v, o1] = .crash) := by
  exact ⟨fun v => by simp [parse_sub], fun v o1 => by simp [parse_sub]⟩

set_option maxHeartbeats 1600000 in
theorem parse_bind_ref_short (v : JsonValue) :
    parse_bind [v] = .crash ∧ parse_ref [v] = .crash := by
  exact ⟨by simp [parse_bind], by simp [parse_ref]⟩

set_option maxHeartbeats 1600000 in
theorem parse_ref_extra (v o1 : JsonValue) (tl : List JsonValue) :
    parse_ref (v :: o1 :: tl) =
      (match parse_ident o1 with
       | .ok id => .ok (.Ident id)
       | .error e => .err e) := by
  simp [parse_ref]

/-- C1 counterexample: `["$ref", "x", "y"]` has too many operands yet
parses successfully as `Ident("x")` (no `TooManyArgs`), and
`["$sub", 1]` has too few operands yet aborts on the out-of-bounds
slice `vs[1..=2]` instead of returning `NotEnoughArgs`. -/
theorem parse_arity_counterexample :
    parse_compound [.String "$ref", .String "x", .String "y"] =
      .ok (.Ident ⟨"x"⟩) ∧
    parse_compound [.String "$sub", .Number ⟨some (.fin 1), "1"⟩] = .crash := by
  constructor
  · rw [parse_compound_cons_ref]
    simpa [parse_ident] using
      parse_ref_extra (.String "$ref") (.String "x") [.String "y"]
  · rw [parse_compound_cons_sub]
    exact parse_sub_short.2 _ _

set_option maxHeartbeats 1600000 in
/-- C1 (amended): the `$add`, `$and`, `$or`, `$eq`, `$notEq`, `$if` and
`$not` forms check their element count before parsing any operand and
report `NotEnoughArgs{actual, expected_min}` or
`TooManyArgs{actual, expected_max}`; the `$sub`, `$bind` and `$ref`
forms perform no arity check — with too few operands they abort on
out-of-bounds indexing, and with too many they ignore the extra
operands and can parse successfully. -/
theorem parse_arity_amended (rest : List JsonValue) :
    (rest.length + 1 < 3 →
      parse_compound (.String "$add" :: rest) =
        .err (.NotEnoughArgs (rest.length + 1) 3) ∧
      parse_compound (.String "$and" :: rest) =
        .err (.NotEnoughArgs (rest.length + 1) 3) ∧
      parse_compound (.String "$or" :: rest) =
        .err (.NotEnoughArgs (rest.length + 1) 3) ∧
      parse_compound (.String "$eq" :: rest) =
        .err (.NotEnoughArgs (rest.length + 1) 3) ∧
      parse_compound (.String "$notEq" :: rest) =
        .err (.NotEnoughArgs (rest.length + 1) 3) ∧
      parse_compound (.String "$if" :: rest) =
        .err (.NotEnoughArgs (rest.length + 1) 3)) ∧
    (rest.length + 1 > 3 →
      parse_compound (.String "$add" :: rest) =
        .err (.TooManyArgs (rest.length + 1) 3) ∧
      parse_compound (.String "$and" :: rest) =
        .err (.TooManyArgs (rest.length + 1) 3) ∧
      parse_compound (.String "$or" :: rest) =
        .err (.TooManyArgs (rest.length + 1) 3) ∧
      parse_compound (.String "$eq" :: rest) =
        .err (.TooManyArgs (rest.length + 1) 3) ∧
      parse_compound (.String "$notEq" :: rest) =
        .err (.TooManyArgs (rest.length + 1) 3)) ∧
    (rest.length + 1 > 4 →
      parse_compound (.String "$if" :: rest) =
        .err (.TooManyArgs (rest.length + 1) 4)) ∧
    (rest.length + 1 < 2 →
      parse_compound (.String "$not" :: rest) =
        .err (.NotEnoughArgs (rest.length + 1) 2)) ∧
    (rest.length + 1 > 2 →
      parse_compound (.String "$not" :: rest) =
        .err (.TooManyArgs (rest.length + 1) 2)) ∧
    (rest.length + 1 < 3 →
      parse_compound (.String "$sub" :: rest) = .crash) ∧
    (rest = [] →
      parse_compound (.String "$ref" :: rest) = .crash ∧
      parse_compound (.String "$bind" :: rest) = .crash) ∧
    (∀ o1 extra, rest = o1 :: extra →
      parse_compound (.String "$ref" :: rest) =
        (match parse_ident o1 with
         | .ok id => .ok (.Ident id)
         | .error e => .err e)) := by
  refine ⟨?_, ?_, ?_, ?_, ?_, ?_, ?_, ?_⟩
  · intro h
    rcases rest with _ | ⟨o1, _ | ⟨o2, rest'⟩⟩
    · refine ⟨?_, ?_, ?_, ?_, ?_, ?_⟩
      · rw [parse_compound_cons_add]
        simpa using parse_add_arity_err.1 _
      · rw [parse_compound_cons_and]
        simpa using parse_and_arity_err.1 _
      · rw [parse_compound_cons_or]
        simpa using parse_or_arity_err.1 _
      · rw [parse_compound_cons_eq]
        simpa using parse_eq_arity_err.1 _
      · rw [parse_compound_cons_notEq]
        simpa using parse_notEq_arity_err.1 _
      · rw [parse_compound_cons_if]
        simpa using parse_if_arity_err.1 _
    · refine ⟨?_, ?_, ?_, ?_, ?_, ?_⟩
      · rw [parse_compound_cons_add]
        simpa using parse_add_arity_err.2.1 _ o1
      · rw [parse_compound_cons_and]
        simpa using parse_and_arity_err.2.1 _ o1
      · rw [parse_compound_cons_or]
        simpa using parse_or_arity_err.2.1 _ o1
      · rw [parse_compound_cons_eq]
        simpa using parse_eq_arity_err.2.1 _ o1
      · rw [parse_compound_cons_notEq]
        simpa using parse_notEq_arity_err.2.1 _ o1
      · rw [parse_compound_cons_if]
        simpa using parse_if_arity_err.2.1 _ o1
    · simp only [List.length_cons] at h
      omega
  · intro h
    rcases rest with _ | ⟨o1, _ | ⟨o2, _ | ⟨o3, rest'⟩⟩⟩
    · simp only [List.length_nil] at h; omega
    · simp only [List.length_cons, List.length_nil] at h; omega
    · simp only [List.length_cons, List.length_nil] at h; omega
    · refine ⟨?_, ?_, ?_, ?_, ?_⟩
      · rw [parse_compound_cons_add]
        simpa using parse_add_arity_err.2.2 _ o1 o2 o3 rest'
      · rw [parse_compound_cons_and]
        simpa using parse_and_arity_err.2.2 _ o1 o2 o3 rest'
      · rw [parse_compound_cons_or]
        simpa using parse_or_arity_err.2.2 _ o1 o2 o3 rest'
      · rw [parse_compound_cons_eq]
        simpa using parse_eq_arity_err.2.2 _ o1 o2 o3 rest'
      · rw [parse_compound_cons_notEq]
        simpa using parse_notEq_arity_err.2.2 _ o1 o2 o3 rest'
  · intro h
    rcases rest with _ | ⟨o1, _ | ⟨o2, _ | ⟨o3, _ | ⟨o4, rest'⟩⟩⟩⟩
    · simp only [List.length_nil] at h; omega
    · simp only [List.length_cons, List.length_nil] at h; omega
    · simp only [List.length_cons, List.length_nil] at h; omega
    · simp only [List.length_cons, List.length_nil] at h; omega
    · rw [parse_compound_cons_if]
      simpa using parse_if_arity_err.2.2 _ o1 o2 o3 o4 rest'
  · intro h
    rcases rest with _ | ⟨o1, rest'⟩
    · rw [parse_compound_cons_not]
      simpa using parse_not_arity_err.1 _
    · simp only [List.length_cons] at h
      omega
  · intro h
    rcases rest with _ | ⟨o1, _ | ⟨o2, rest'⟩⟩
    · simp only [List.length_nil] at h; omega
    · simp only [List.length_cons, List.length_nil] at h; omega
    · rw [parse_compound_cons_not]
      simpa using parse_not_arity_err.2 _ o1 o2 rest'
  · intro h
    rcases rest with _ | ⟨o1, _ | ⟨o2, rest'⟩⟩
    · rw [parse_compound_cons_sub]
      exact parse_sub_short.1 _
    · rw [parse_compound_cons_sub]
      exact parse_sub_short.2 _ o1
    · simp only [List.length_cons] at h
      omega
  · rintro rfl
    refine ⟨?_, ?_⟩
    · rw [parse_compound_cons_ref]
      exact (parse_bind_ref_short _).2
    · rw [parse_compound_cons_bind]
      exact (parse_bind_ref_short _).1
  · rintro o1 extra rfl
    rw [parse_compound_cons_ref]
    exact parse_ref_extra _ o1 extra

set_option maxHeartbeats 1600000 in
/-- C1 witness: `["$add", 1]` is the arity error `NotEnoughArgs 2 3`,
while `["$ref", "x", "y"]` parses successfully with the extra operand
ignored. -/
theorem parse_arity_amended_witness :
    parse_compound [.String "$add", .Number ⟨some (.fin 1), "1"⟩] =
      .err (.NotEnoughArgs 2 3) ∧
    parse_compound [.String "$ref", .String "x", .String "y"] =
      .ok (.Ident ⟨"x"⟩) := by
  constructor
  · exact ((parse_arity_amended [.Number ⟨some (.fin 1), "1"⟩]).1
      (by simp)).1
  · have h := (parse_arity_amended [.String "x", .String "y"]).2.2.2.2.2.2.2
      (.String "x") [.String "y"] rfl
    simpa [parse_ident] using h

set_option maxHeartbeats 1600000 in
/-- C8 counterexample: a bare JSON object does not produce a
`ParseError` — `parse_expression` hits the `unimplemented!()` arm and
terminates abnormally. -/
theorem object_crash_counterexample :
    parse_expression (.Object []) = .crash := by
  simp [parse_expression]

set_option maxHeartbeats 1600000 in
/-- C8 (amended): `parse_expression` returns literal AST nodes for every
scalar shape (with `UnsupportedNumberLiteral` for a number `as_f64`
cannot represent) and defers arrays to the compound parser, but a JSON
node that is neither a scalar nor an array — an object — terminates
abnormally through `unimplemented!()` instead of returning a
`ParseError`: `parse_json` is not total over all syntactically valid
JSON. -/
theorem parse_shape_amended :
    (∀ fields, parse_expression (.Object fields) = .crash) ∧
    (∀ s, parse_expression (.String s) = .ok (.Literal (.String s))) ∧
    (∀ b, parse_expression (.Bool b) = .ok (.Literal (.Boolean b))) ∧
    parse_expression .Null = .ok (.Literal .Null) ∧
    (∀ num : JsonNumber, ∀ n, num.as_f64 = some n →
      parse_expression (.Number num) = .ok (.Literal (.Number n))) ∧
    (∀ num : JsonNumber, num.as_f64 = none →
      parse_expression (.Number num) =
        .err (.UnsupportedNumberLiteral num.toStr)) ∧
    (∀ values, parse_expression (.Array values) = parse_compound values) := by
  refine ⟨fun fields => by simp [parse_expression],
    fun s => by simp [parse_expression],
    fun b => by simp [parse_expression],
    by simp [parse_expression],
    fun num n h => by simp [parse_expression, h],
    fun num h => by simp [parse_expression, h],
    fun values => by simp [parse_expression]⟩

/-- C8 witness: the representable number `1` parses as a number
literal. -/
theorem parse_shape_amended_witness :
    parse_expression (.Number ⟨some (.fin 1), "1"⟩) =
      .ok (.Literal (.Number (.fin 1))) :=
  parse_shape_amended.2.2.2.2.1 ⟨some (.fin 1), "1"⟩ (.fin 1) rfl

set_option maxHeartbeats 1600000 in
/-- C10 counterexample: the empty array is not answered with a
`ParseError` — `parse_compound` indexes `vs[0]` and terminates
abnormally. -/
theorem empty_array_counterexample :
    parse_expression (.Array []) = .crash := by
  simp [parse_expression, parse_compound]

set_option maxHeartbeats 1600000 in
/-- C10 (amended): compound-form classification is not total in the
array's length — the dispatch on the array's first element does not
handle the empty case, so `[]` aborts on out-of-bounds indexing — while
every nonempty array whose first element is not one of the recognized
operator-tag strings yields the `ParseError` `UnsupportedForm`. -/
theorem compound_dispatch_amended :
    parse_expression (.Array []) = .crash ∧
    (∀ v0 rest, is_recognized_head v0 = false →
      parse_expression (.Array (v0 :: rest)) = .err .UnsupportedForm) := by
  constructor
  · simp [parse_expression, parse_compound]
  · intro v0 rest h
    cases v0 with
    | String s =>
      simp only [is_recognized_head, Bool.or_eq_false_iff,
        decide_eq_false_iff_not] at h
      obtain ⟨⟨⟨⟨⟨⟨⟨⟨⟨⟨h1, h2⟩, h3⟩, h4⟩, h5⟩, h6⟩, h7⟩, h8⟩, h9⟩, h10⟩,
        h11⟩ := h
      simp [parse_expression, parse_compound, h1, h2, h3, h4, h5, h6, h7,
        h8, h9, h10, h11]
    | Null => simp [parse_expression, parse_compound]
    | Bool b => simp [parse_expression, parse_compound]
    | Number n => simp [parse_expression, parse_compound]
    | Array vs => simp [parse_expression, parse_compound]
    | Object fields => simp [parse_expression, parse_compound]

/-- C10 witness: an array headed by a number is `UnsupportedForm`. -/
theorem compound_dispatch_amended_witness :
    parse_expression (.Array [.Number ⟨some (.fin 1), "1"⟩]) =
      .err .UnsupportedForm :=
  compound_dispatch_amended.2 (.Number ⟨some (.fin 1), "1"⟩) [] rfl

end JsonMonkey
